import Mathlib

/-!
Verification of the legionbatctl daemon core: a shallow embedding of the
state store, decision predicates, persistence, request handlers, the
connection loop and the monitoring-interval logic, with theorems settling
the specification's claims about them. Integers are modelled as `Int`
(Go `int` values here stay far from 64-bit bounds), durations as whole
seconds, and the file system / hardware as explicit state passed through
each operation.
-/

namespace Legionbatctl

/-- Go struct `state.State`: the persistent state of the battery daemon.
Timestamps (`time.Time`) are abstracted as `Nat` instants. -/
structure State where
  conservationEnabled : Bool
  chargeThreshold : Int
  currentMode : String
  lastAction : String
  lastActionTime : Nat
  batteryLevel : Int
  conservationMode : Bool
  charging : Bool
  pid : Int
  startTime : Nat
deriving Repr, DecidableEq

/-- Go `Manager.ShouldEnableConservation`: reads only the current snapshot.
`return m.state.ConservationEnabled && m.state.Charging && m.state.BatteryLevel >= m.state.ChargeThreshold` -/
def ShouldEnableConservation (s : State) : Bool :=
  s.conservationEnabled && s.charging && decide (s.batteryLevel ≥ s.chargeThreshold)

/-- Go `Manager.ShouldDisableConservation`: reads only the current snapshot.
`return m.state.ConservationEnabled && m.state.Charging && m.state.BatteryLevel < m.state.ChargeThreshold` -/
def ShouldDisableConservation (s : State) : Bool :=
  s.conservationEnabled && s.charging && decide (s.batteryLevel < s.chargeThreshold)

/-- Go `state` package error values returned by `validateStateFields`. -/
inductive StateErr
  | invalidThreshold
  | invalidBatteryLevel
  | invalidMode
deriving Repr, DecidableEq

/-- Go `validateStateFields`: threshold in [60,100], battery level in
[0,100], mode in the closed set; first violated invariant wins.
(`Manager.Validate` additionally checks the PID, but the save path calls
`validateState = validateStateFields` only.) -/
def validateStateFields (s : State) : Option StateErr :=
  if s.chargeThreshold < 60 || s.chargeThreshold > 100 then some .invalidThreshold
  else if s.batteryLevel < 0 || s.batteryLevel > 100 then some .invalidBatteryLevel
  else if !(s.currentMode == "enabled" || s.currentMode == "disabled" || s.currentMode == "unknown")
    then some .invalidMode
  else none

/-- On-disk mirror: the parsed content of the state file (`none` = absent).
The `.tmp` staging file is transient and never observable after a call, so
only the destination is modelled. -/
structure Disk where
  stateFile : Option State
deriving Repr, DecidableEq

/-- Outcome of the I/O steps inside `Manager.saveStateAtomic`, one
constructor per failure point of the Go code (mkdir, create temp, encode,
sync, close, rename, chmod), or `ok`. -/
inductive SaveOutcome
  | ok
  | mkdirFail
  | createFail
  | encodeFail
  | syncFail
  | closeFail
  | renameFail
  | chmodFail
deriving Repr, DecidableEq

/-- Errors `Manager.saveStateAtomic` returns. -/
inductive SaveErr
  | invalidState (e : StateErr)
  | mkdirFailed
  | createFailed
  | encodeFailed
  | syncFailed
  | closeFailed
  | renameFailed
  | chmodFailed
deriving Repr, DecidableEq

/-- Go `Manager.saveStateAtomic`: validate the state first (invalid state
is never written); then temp-file write / sync / close / rename; a failure
before the rename leaves the destination untouched (the temp file is
removed), while a chmod failure after the rename leaves the new file in
place and still reports an error. -/
def saveStateAtomic (s : State) (d : Disk) (o : SaveOutcome) : Disk × Option SaveErr :=
  match validateStateFields s with
  | some e => (d, some (.invalidState e))
  | none =>
    match o with
    | .ok => ({ stateFile := some s }, none)
    | .mkdirFail => (d, some .mkdirFailed)
    | .createFail => (d, some .createFailed)
    | .encodeFail => (d, some .encodeFailed)
    | .syncFail => (d, some .syncFailed)
    | .closeFail => (d, some .closeFailed)
    | .renameFail => (d, some .renameFailed)
    | .chmodFail => ({ stateFile := some s }, some .chmodFailed)

/-- Go `Manager.UpdateState`: apply the mutation to the in-memory state,
then persist the mutated value with `saveStateAtomic`; the save's error is
returned as-is and the in-memory value is kept even when the save fails
(no rollback). -/
def updateState (st : State) (f : State → State) (d : Disk) (o : SaveOutcome) :
    State × Disk × Option SaveErr :=
  let st' := f st
  let r := saveStateAtomic st' d o
  (st', r.1, r.2)

/-- Go `Manager.EnableConservation`'s mutator (the closure passed to
`UpdateState`): sets enabled, mode "enabled", last action "enable",
timestamp `time.Now()`. -/
def enableMutator (now : Nat) (s : State) : State :=
  { s with conservationEnabled := true, currentMode := "enabled",
           lastAction := "enable", lastActionTime := now }

/-- Go `Manager.SetChargeThreshold`'s mutator. -/
def setThresholdMutator (t : Int) (now : Nat) (s : State) : State :=
  { s with chargeThreshold := t, lastAction := "set_threshold", lastActionTime := now }

/-- Go `createDefaultState`: threshold 80, mode "unknown", action "init",
timestamps `time.Now()`. -/
def createDefaultState (now : Nat) : State :=
  { conservationEnabled := false, chargeThreshold := 80, currentMode := "unknown",
    lastAction := "init", lastActionTime := now, batteryLevel := 0,
    conservationMode := false, charging := false, pid := 0, startTime := now }

/-- What `os.ReadFile` + `json.Unmarshal` yield for the state file in
`Manager.Load`: the file is absent, unreadable, present but not valid
JSON, or parses to a `State` value. -/
inductive FileRead
  | absent
  | readFail
  | corrupt
  | parsed (s : State)
deriving Repr, DecidableEq

/-- Errors `Manager.Load` returns, one per `return fmt.Errorf(...)` site. -/
inductive LoadErr
  | readFailed
  | unmarshalFailed
  | invalidStateFile (e : StateErr)
  | saveFailed (e : SaveErr)
deriving Repr, DecidableEq

/-- Go `Manager.Load` over prior in-memory state `m0`: absent file →
install defaults and persist them (returning the save's error, if any);
unreadable → error, memory untouched; corrupt JSON → install defaults in
memory and return a non-nil unmarshal error (no persist); parsed but
invalid → install defaults in memory and return a non-nil validation
error (no persist); valid → install the parsed state, no error. -/
def load (fr : FileRead) (m0 : State) (d : Disk) (o : SaveOutcome) (now : Nat) :
    State × Disk × Option LoadErr :=
  match fr with
  | .absent =>
    let st := createDefaultState now
    let r := saveStateAtomic st d o
    (st, r.1, r.2.map .saveFailed)
  | .readFail => (m0, d, some .readFailed)
  | .corrupt => (createDefaultState now, d, some .unmarshalFailed)
  | .parsed s =>
    match validateStateFields s with
    | some e => (createDefaultState now, d, some (.invalidStateFile e))
    | none => (s, d, none)

/-- Go `Daemon.Start` lines 74–76: `if err := d.stateManager.Load(); err != nil
{ return fmt.Errorf("failed to load state: %w", err) }` — startup aborts
whenever `Load` returns a non-nil error. -/
def daemonStartAbortsOnLoad (fr : FileRead) (m0 : State) (d : Disk) (o : SaveOutcome)
    (now : Nat) : Bool :=
  ((load fr m0 d o now).2.2).isSome

/-- Go `protocol.ValidateThreshold`: `if threshold < 60 || threshold > 100
{ return ErrInvalidThreshold }`. `true` = the error is returned. -/
def ValidateThreshold (t : Int) : Bool :=
  t < 60 || t > 100

/-- The `threshold` entry of a `set_threshold` request's params map as
`handleSetThreshold` inspects it: absent, present but not a JSON number,
or a number already truncated to `int`. -/
inductive ThresholdParam
  | missing
  | wrongType
  | value (t : Int)
deriving Repr, DecidableEq

/-- Go `Daemon.handleSetThreshold`: missing / non-number param → error;
out-of-range (per `ValidateThreshold`) → error before any state call;
otherwise `SetChargeThreshold` runs (mutate + persist) and a persist
error still surfaces as a failure response. Returns
(success?, in-memory state, disk). -/
def handleSetThreshold (p : ThresholdParam) (st : State) (d : Disk) (o : SaveOutcome)
    (now : Nat) : Bool × State × Disk :=
  match p with
  | .missing => (false, st, d)
  | .wrongType => (false, st, d)
  | .value t =>
    if ValidateThreshold t then (false, st, d)
    else
      let r := updateState st (setThresholdMutator t now) d o
      match r.2.2 with
      | some _ => (false, r.1, r.2.1)
      | none => (true, r.1, r.2.1)

/-- Errors of Go `Daemon.setConservationMode`: the sysfs write failed, the
verification re-read failed, or the re-read value differs from the
requested one (the distinct "conservation mode not updated" error, which
carries the expected and actual strings). -/
inductive CMErr
  | writeFailed
  | verifyReadFailed
  | notApplied (expected got : String)
deriving Repr, DecidableEq

/-- The string `Daemon.setConservationMode` writes: "1" to enable, "0" to
disable. -/
def conservationValue (enable : Bool) : String :=
  if enable then "1" else "0"

/-- Model of Go `strings.TrimSpace`: drop leading and trailing whitespace
characters. -/
def trimSpace (s : String) : String :=
  ⟨((s.data.dropWhile Char.isWhitespace).reverse.dropWhile Char.isWhitespace).reverse⟩

/-- Go `Daemon.setConservationMode` with the hardware's reaction made
explicit: `writeOk` is whether `os.WriteFile` succeeded, `readBack` the
content the verification re-read returns (`none` = read error). After a
successful write it re-reads, trims both sides, and returns the distinct
not-applied error when they differ; `none` (success) only when the
re-read reflects the requested value. -/
def setConservationModeCheck (enable : Bool) (writeOk : Bool) (readBack : Option String) :
    Option CMErr :=
  if !writeOk then some .writeFailed
  else
    match readBack with
    | none => some .verifyReadFailed
    | some data =>
      let actualValue := trimSpace data
      let expectedValue := trimSpace (conservationValue enable)
      if actualValue ≠ expectedValue then some (.notApplied expectedValue actualValue)
      else none

/-- Daemon-side state for the enable handler: state store memory, disk
mirror, and the content of the sysfs conservation_mode file. -/
structure DaemonState where
  st : State
  disk : Disk
  hw : String
deriving Repr, DecidableEq

/-- Result of one `handleEnable` call: the daemon state after it, whether
the handler returned success, and how many hardware writes it issued. -/
structure EnableResult where
  ds : DaemonState
  success : Bool
  hwWrites : Nat
deriving Repr, DecidableEq

/-- Go `Daemon.setConservationMode` against hardware that applies the
write: the file content becomes the requested value, one write is issued,
and the verification re-read sees that content. -/
def applyConservationWrite (enable : Bool) : String × Option CMErr :=
  let v := conservationValue enable
  (v, setConservationModeCheck enable true (some v))

/-- Go `Daemon.handleEnable`: `EnableConservation` (mutate + persist) —
a failure there is the response and no hardware write happens; then, if
`ShouldEnableConservation` holds on the fresh snapshot, one unconditional
`setConservationMode(true)` call (it does not consult the current
hardware value before writing). -/
def handleEnable (ds : DaemonState) (o : SaveOutcome) (now : Nat) : EnableResult :=
  let r := updateState ds.st (enableMutator now) ds.disk o
  match r.2.2 with
  | some _ => ⟨⟨r.1, r.2.1, ds.hw⟩, false, 0⟩
  | none =>
    if ShouldEnableConservation r.1 then
      let w := applyConservationWrite true
      match w.2 with
      | some _ => ⟨⟨r.1, r.2.1, w.1⟩, false, 1⟩
      | none => ⟨⟨r.1, r.2.1, w.1⟩, true, 1⟩
    else ⟨⟨r.1, r.2.1, ds.hw⟩, true, 0⟩

/-- Go `protocol.Message`, pared to the fields `handleConnection`'s loop
control reads (payloads do not affect how many messages are processed). -/
structure Message where
  type : String
  id : String
deriving Repr, DecidableEq

/-- Go `Message.IsResponse`. -/
def Message.IsResponse (m : Message) : Bool :=
  m.type == "response"

/-- Go `Daemon.handleConnection` over the sequence of messages the client
sends before closing: each decoded message is passed to `processRequest`
and answered with exactly one response; the loop returns on decode error
or stream end (the empty tail) or right after answering a response-typed
message. Returns how many messages were dispatched (= responses written). -/
def handleConnectionProcessed : List Message → Nat
  | [] => 0
  | m :: rest => 1 + (if m.IsResponse then 0 else handleConnectionProcessed rest)

/-- Modelled from the spec: the prefix of the incoming messages a
one-request-per-connection server would handle, extended to the code's
stop condition — everything up to and including the first response-typed
message. Used to state the amended per-connection claim. -/
def connectionSpecSlice : List Message → List Message
  | [] => []
  | m :: rest => if m.IsResponse then [m] else m :: connectionSpecSlice rest

/-- Go `abs` from battery_monitor.go. -/
def goAbs (x : Int) : Int :=
  if x < 0 then -x else x

/-- Go `Daemon.adjustCheckInterval`, in seconds: the interval the field
`checkInterval` holds after the call (the code assigns `newInterval`
whenever it differs, so the result is `newInterval` either way). -/
def adjustCheckInterval (batteryLevel threshold : Int) : Int :=
  let difference := goAbs (batteryLevel - threshold)
  if difference < 5 then 15
  else if difference < 15 then 30
  else 2 * 60

/-- Go `Daemon.SetCheckInterval`, in seconds: clamps below 10 seconds up
to 10 seconds, then above 10 minutes down to 10 minutes, and stores the
result. -/
def SetCheckInterval (interval : Int) : Int :=
  let i1 := if interval < 10 then 10 else interval
  if i1 > 10 * 60 then 10 * 60 else i1

/-- C1: for every state snapshot, `ShouldEnableConservation` returns true
exactly when conservation management is enabled, the battery is charging
and the battery level has reached the charge threshold, and
`ShouldDisableConservation` exactly when management is enabled, charging
and the level is below the threshold; both are (pure) functions of the
snapshot argument alone. -/
theorem C1_decision_predicates (s : State) :
    (ShouldEnableConservation s = true ↔
      s.conservationEnabled = true ∧ s.charging = true ∧
        s.batteryLevel ≥ s.chargeThreshold)
    ∧ (ShouldDisableConservation s = true ↔
      s.conservationEnabled = true ∧ s.charging = true ∧
        s.batteryLevel < s.chargeThreshold) := by
  constructor <;>
    simp [ShouldEnableConservation, ShouldDisableConservation, Bool.and_eq_true,
      decide_eq_true_eq, and_assoc]

/-- C9: `ShouldEnableConservation` and `ShouldDisableConservation` are
never both true on the same snapshot: both require enabled-and-charging
and then split on `batteryLevel ≥ threshold` versus `batteryLevel <
threshold`, which exclude each other. -/
theorem C9_predicates_mutually_exclusive (s : State) :
    ¬(ShouldEnableConservation s = true ∧ ShouldDisableConservation s = true) := by
  intro h
  obtain ⟨h1, h2⟩ := h
  simp only [ShouldEnableConservation, Bool.and_eq_true, decide_eq_true_eq] at h1
  simp only [ShouldDisableConservation, Bool.and_eq_true, decide_eq_true_eq] at h2
  exact absurd h2.2 (not_lt.mpr h1.2)

/-- C3: a `set_threshold` request whose threshold lies outside the
inclusive range [60,100] yields a failure response and leaves both the
in-memory state and the on-disk state file exactly as they were (the
validation happens before any state-store call). -/
theorem C3_set_threshold_rejects_out_of_range (t : Int) (st : State) (d : Disk)
    (o : SaveOutcome) (now : Nat) (h : t < 60 ∨ 100 < t) :
    handleSetThreshold (.value t) st d o now = (false, st, d) := by
  have hv : ValidateThreshold t = true := by
    simp only [ValidateThreshold, Bool.or_eq_true, decide_eq_true_eq]
    omega
  simp [handleSetThreshold, hv]

/-- C3 witness: threshold 101 is rejected with state and disk unchanged. -/
theorem C3_set_threshold_witness :
    handleSetThreshold (.value 101) (createDefaultState 0) (Disk.mk none) .ok 0 =
      (false, createDefaultState 0, Disk.mk none) :=
  C3_set_threshold_rejects_out_of_range 101 (createDefaultState 0) (Disk.mk none) .ok 0
    (Or.inr (by norm_num))

/-- C4: the monitoring loop's recomputed interval matches the piecewise
formula on the absolute battery/threshold difference (15 s below 5,
30 s below 15, 2 minutes otherwise); every such interval already lies in
[10 s, 10 min] and is a fixed point of the `SetCheckInterval` clamp; and
`SetCheckInterval` clamps every incoming interval into [10 s, 10 min]. -/
theorem C4_interval_formula_and_clamp (batteryLevel threshold interval : Int) :
    adjustCheckInterval batteryLevel threshold =
      (if |batteryLevel - threshold| < 5 then 15
       else if |batteryLevel - threshold| < 15 then 30 else 120)
    ∧ 10 ≤ adjustCheckInterval batteryLevel threshold
    ∧ adjustCheckInterval batteryLevel threshold ≤ 600
    ∧ SetCheckInterval (adjustCheckInterval batteryLevel threshold) =
        adjustCheckInterval batteryLevel threshold
    ∧ 10 ≤ SetCheckInterval interval
    ∧ SetCheckInterval interval ≤ 600 := by
  have habs : goAbs (batteryLevel - threshold) = |batteryLevel - threshold| := by
    rcases lt_or_le (batteryLevel - threshold) 0 with h | h
    · rw [goAbs, if_pos h, abs_of_neg h]
    · rw [goAbs, if_neg (not_lt.mpr h), abs_of_nonneg h]
  refine ⟨?_, ?_, ?_, ?_, ?_, ?_⟩
  · simp only [adjustCheckInterval, habs]
    norm_num
  · simp only [adjustCheckInterval]
    split_ifs <;> omega
  · simp only [adjustCheckInterval]
    split_ifs <;> omega
  · simp only [adjustCheckInterval, SetCheckInterval]
    split_ifs <;> omega
  · simp only [SetCheckInterval]
    split_ifs <;> omega
  · simp only [SetCheckInterval]
    split_ifs <;> omega

/-- C2 counterexample: with a corrupt (unparseable) state file, `Load`
returns a non-nil error — so the corruption is not reported only as a
non-fatal diagnostic — and `Daemon.Start` propagates it, aborting daemon
startup. -/
theorem C2_load_corrupt_counterexample :
    (load .corrupt (createDefaultState 0) (Disk.mk none) .ok 0).2.2 =
      some LoadErr.unmarshalFailed
    ∧ daemonStartAbortsOnLoad .corrupt (createDefaultState 0) (Disk.mk none) .ok 0 = true :=
  ⟨rfl, rfl⟩

/-- C2 amended: when the state file is absent, `Load` installs the default
state (threshold 80, mode unknown) and persists it; when the file is
corrupt JSON or fails validation, `Load` falls back to the default state
in memory but returns a non-nil error describing the corruption, and
`Daemon.Start` treats that error as fatal, so daemon startup aborts on a
corrupt or invalid state file. -/
theorem C2_load_defaults_and_error (m0 : State) (d : Disk) (now : Nat) :
    load .absent m0 d .ok now =
      (createDefaultState now, Disk.mk (some (createDefaultState now)), none)
    ∧ (load .corrupt m0 d .ok now).1 = createDefaultState now
    ∧ (load .corrupt m0 d .ok now).2.2 = some LoadErr.unmarshalFailed
    ∧ daemonStartAbortsOnLoad .corrupt m0 d .ok now = true
    ∧ (∀ s e, validateStateFields s = some e →
        (load (.parsed s) m0 d .ok now).1 = createDefaultState now
        ∧ (load (.parsed s) m0 d .ok now).2.2 = some (LoadErr.invalidStateFile e)
        ∧ daemonStartAbortsOnLoad (.parsed s) m0 d .ok now = true) := by
  refine ⟨?_, rfl, rfl, rfl, ?_⟩
  · have hv : validateStateFields (createDefaultState now) = none := rfl
    simp [load, saveStateAtomic, hv]
  · intro s e he
    refine ⟨?_, ?_, ?_⟩ <;> simp [load, daemonStartAbortsOnLoad, he]

/-- C8: `UpdateState` applies the mutation first and hands exactly the
mutated value to the atomic save, whose error it returns unchanged; in
particular on a failing persist step (modelled by the rename failing) the
caller gets an error, the on-disk file is untouched, and the in-memory
state still holds the mutated value — no rollback. -/
theorem C8_update_state_mutates_then_persists (st : State) (f : State → State)
    (d : Disk) (o : SaveOutcome) :
    (updateState st f d o).1 = f st
    ∧ (updateState st f d o).2.1 = (saveStateAtomic (f st) d o).1
    ∧ (updateState st f d o).2.2 = (saveStateAtomic (f st) d o).2
    ∧ (updateState st f d .renameFail).1 = f st
    ∧ (updateState st f d .renameFail).2.1 = d
    ∧ ((updateState st f d .renameFail).2.2).isSome = true := by
  refine ⟨rfl, rfl, rfl, rfl, ?_, ?_⟩ <;>
    cases hv : validateStateFields (f st) <;>
      simp [updateState, saveStateAtomic, hv]

/-- C10: the atomic save validates before writing, so the state file is
either left untouched or holds a state satisfying the field invariants
(threshold in [60,100], battery level in [0,100], mode in the closed
set); and an `UpdateState` whose mutation produces an invalid state
returns the per-invariant error without writing the file, while the
invalid value remains in memory. Every write of the state file in the
code (`Save`, `UpdateState`, `Load`'s default creation, `Restore`) goes
through `saveStateAtomic`. -/
theorem C10_persisted_state_valid (st : State) (f : State → State) (d : Disk)
    (o : SaveOutcome) :
    ((saveStateAtomic (f st) d o).1 = d ∨
      ((saveStateAtomic (f st) d o).1.stateFile = some (f st)
        ∧ validateStateFields (f st) = none))
    ∧ (∀ e, validateStateFields (f st) = some e →
        (updateState st f d o).2.1 = d
        ∧ (updateState st f d o).2.2 = some (SaveErr.invalidState e)
        ∧ (updateState st f d o).1 = f st) := by
  constructor
  · cases hv : validateStateFields (f st) <;> cases o <;> simp [saveStateAtomic, hv]
  · intro e he
    refine ⟨?_, ?_, rfl⟩ <;> simp [updateState, saveStateAtomic, he]

/-- C5 counterexample: management off, threshold 80, battery 85, charging,
and the hardware conservation switch already at "1" (the target state).
The first `enable` issues a hardware write, and a second `enable` issues
another one even though the hardware already holds the target value — two
writes in total, not at most one. -/
theorem C5_enable_counterexample :
    (handleEnable
      ⟨{ conservationEnabled := false, chargeThreshold := 80, currentMode := "unknown",
         lastAction := "init", lastActionTime := 0, batteryLevel := 85,
         conservationMode := false, charging := true, pid := 0, startTime := 0 },
       Disk.mk none, "1"⟩ .ok 0).hwWrites = 1
    ∧ (handleEnable (handleEnable
      ⟨{ conservationEnabled := false, chargeThreshold := 80, currentMode := "unknown",
         lastAction := "init", lastActionTime := 0, batteryLevel := 85,
         conservationMode := false, charging := true, pid := 0, startTime := 0 },
       Disk.mk none, "1"⟩ .ok 0).ds .ok 0).hwWrites = 1 := by
  constructor <;> decide

/-- C5 amended: issuing `enable` twice (same tick instant, saves
succeeding) leaves the daemon state — store memory, disk mirror and
hardware switch — identical to issuing it once, but the handler does not
consult the current hardware value before writing: the second `enable`
issues exactly as many hardware writes as the first, repeating the write
(of the same value) whenever the threshold condition holds, rather than
performing at most one write across both calls. -/
theorem C5_enable_idempotent_state_repeated_write (ds : DaemonState) (now : Nat) :
    (handleEnable (handleEnable ds .ok now).ds .ok now).ds = (handleEnable ds .ok now).ds
    ∧ (handleEnable (handleEnable ds .ok now).ds .ok now).hwWrites =
        (handleEnable ds .ok now).hwWrites := by
  have hmut : enableMutator now (enableMutator now ds.st) = enableMutator now ds.st := rfl
  have hcheck : setConservationModeCheck true true (some (conservationValue true)) = none := by
    decide
  by_cases hse : ShouldEnableConservation (enableMutator now ds.st) = true <;>
    cases hval : validateStateFields (enableMutator now ds.st) <;>
      simp [handleEnable, updateState, saveStateAtomic, applyConservationWrite,
        hmut, hval, hse, hcheck]

/-- C6 counterexample: a client that sends two request messages on one
connection gets both dispatched and answered — the daemon does process a
second request on the same connection. -/
theorem C6_two_requests_counterexample :
    handleConnectionProcessed
      [Message.mk "request" "req-1", Message.mk "request" "req-2"] = 2 := by
  rfl

/-- C6 amended: per connection the daemon loops, dispatching every decoded
message to `processRequest` and writing exactly one response for it,
until the stream ends (or fails to decode) or the incoming message is of
response type — so the number of processed messages is the length of the
prefix up to and including the first response-typed message, which can
exceed one when a client sends several requests before closing. -/
theorem C6_connection_processes_prefix (msgs : List Message) :
    handleConnectionProcessed msgs = (connectionSpecSlice msgs).length := by
  induction msgs with
  | nil => rfl
  | cons m rest ih =>
    cases h : m.IsResponse
    · simp [handleConnectionProcessed, connectionSpecSlice, h, ih]
      omega
    · simp [handleConnectionProcessed, connectionSpecSlice, h]

/-- C7: after a successful sysfs write, the conservation-mode operation
re-reads the hardware file; it succeeds exactly when the (trimmed)
re-read value equals the requested value, and returns the distinct
not-applied error exactly when it differs; a failed write or a failed
verification re-read yield their own distinct errors and never success. -/
theorem C7_write_verified_not_applied (enable : Bool) (readBack : String) :
    (setConservationModeCheck enable true (some readBack) = none ↔
      trimSpace readBack = conservationValue enable)
    ∧ (setConservationModeCheck enable true (some readBack) =
        some (CMErr.notApplied (conservationValue enable) (trimSpace readBack)) ↔
      trimSpace readBack ≠ conservationValue enable)
    ∧ (∀ rb, setConservationModeCheck enable false rb = some CMErr.writeFailed)
    ∧ setConservationModeCheck enable true none = some CMErr.verifyReadFailed := by
  have htrim : trimSpace (conservationValue enable) = conservationValue enable := by
    cases enable <;> decide
  refine ⟨?_, ?_, fun rb => rfl, rfl⟩ <;>
    by_cases h : trimSpace readBack = conservationValue enable <;>
      simp [setConservationModeCheck, htrim, h]

end Legionbatctl
